import Mathlib

/-!
Verification development for the UrlShortner core: a shallow embedding of
`src/commons/url_utils.py`, `src/commons/dynamodb_utils.py`,
`src/url_shortener_handlers/getOrCreateShortURL.py` and
`src/url_shortener_handlers/redirectURL.py`, together with theorems about the
embedded definitions.

Conventions:
* Instants are microseconds since the Unix epoch, as `Int` (Python `datetime`
  has microsecond resolution; comparison of aware datetimes compares instants).
* Python strings are Lean `String`s; Python slicing of `str` is `List.take` /
  `List.drop` on `String.data`.
* Machine-independent `int` arithmetic is `Nat`/`Int`; 32-bit words in SHA-256
  are `Nat` reduced mod 2^32 explicitly.
* Fallible Python code (raising exceptions) is embedded with `Option`/`Except`.
* The nondeterministic environment (wall clock, DynamoDB) is passed explicitly:
  clocks become `String`/`Int` parameters or `Nat → String` oracles (one fresh
  timestamp per call), and the store's conditional write becomes an oracle
  `Nat → StoreResp` giving the store's answer to the n-th write call.
-/

namespace UrlShortner

/-! ## Python exception classes (src/commons/lambda_utils.py, plus ValueError) -/

/-- Embedding of the exception classes that can cross the functions under
study: Python's builtin `ValueError` and the `LambdaError` subclasses
`ValidationError`, `NotFoundError`, `ConflictError` (lambda_utils.py) and
`DatabaseError` (dynamodb_utils.py).  Each carries its message string. -/
inductive PyErr where
  | valueError (msg : String)
  | validationError (msg : String)
  | notFoundError (msg : String)
  | conflictError (msg : String)
  | databaseError (msg : String)
deriving DecidableEq

/-- Python truthiness of an optional string (`if x:`): `None` and `""` are
falsy. -/
def optTruthy : Option String → Bool
  | none => false
  | some s => s ≠ ""

/-! ## Calendar arithmetic

`datetime` instants are converted to microseconds since the Unix epoch via the
standard proleptic-Gregorian civil-date/day-number bijection (Python's
`datetime` uses the proleptic Gregorian calendar, years 1..9999). -/

/-- Day number (days since 1970-01-01) of a civil date.  Standard
days-from-civil algorithm for the proleptic Gregorian calendar; valid for
years ≥ 1. -/
def daysFromCivil (y m d : Nat) : Int :=
  let y' : Nat := if m ≤ 2 then y - 1 else y
  let era : Nat := y' / 400
  let yoe : Nat := y' - era * 400
  let mp : Nat := (m + 9) % 12
  let doy : Nat := (153 * mp + 2) / 5 + d - 1
  let doe : Nat := yoe * 365 + yoe / 4 - yoe / 100 + doy
  (era : Int) * 146097 + (doe : Int) - 719468

/-- Civil date of a day number (inverse of `daysFromCivil`), for day numbers
from year 1 on. -/
def civilFromDays (z : Int) : Nat × Nat × Nat :=
  let zn : Nat := (z + 719468).toNat
  let era : Nat := zn / 146097
  let doe : Nat := zn % 146097
  let yoe : Nat := (doe - doe / 1460 + doe / 36524 - doe / 146096) / 365
  let y : Nat := yoe + era * 400
  let doy : Nat := doe - (365 * yoe + yoe / 4 - yoe / 100)
  let mp : Nat := (5 * doy + 2) / 153
  let d : Nat := doy - (153 * mp + 2) / 5 + 1
  let m : Nat := if mp < 10 then mp + 3 else mp - 9
  (if m ≤ 2 then y + 1 else y, m, d)

/-- Gregorian leap year (as in Python's `calendar`/`datetime`). -/
def isLeapYear (y : Nat) : Bool := (y % 4 = 0 && y % 100 ≠ 0) || y % 400 = 0

/-- Days in a month, as validated by the `datetime` constructor. -/
def daysInMonth (y m : Nat) : Nat :=
  if m = 2 then (if isLeapYear y then 29 else 28)
  else if m = 4 ∨ m = 6 ∨ m = 9 ∨ m = 11 then 30
  else 31

/-! ## Model of `datetime.fromisoformat` (Python ≤ 3.10 documented grammar)

`url_utils.is_expired` calls `datetime.fromisoformat` after hand-normalising
the `Z` suffix, so the relevant grammar is the one documented for
`fromisoformat` up to Python 3.10:
`YYYY-MM-DD[*HH[:MM[:SS[.fff[fff]]]][+HH:MM[:SS[.ffffff]]]]`
where `*` is an arbitrary single separator character, the timezone part starts
with `+` or `-` (CPython splits the time string at the first `-`, else the
first `+`), and the timezone text must have length 5, 8 or 15.  Numeric fields
are modelled as strings of decimal digits.  Range validation (the `datetime`
constructor: year 1..9999, month, day, hour ≤ 23, minute ≤ 59, second ≤ 59,
and a timezone offset strictly between -24h and +24h) is applied at the end. -/

/-- A parsed Python `datetime`: civil fields plus an optional explicit UTC
offset in microseconds (`None` = naive). -/
structure PyDateTime where
  year : Nat
  month : Nat
  day : Nat
  hour : Nat
  minute : Nat
  second : Nat
  usec : Nat
  offsetUs : Option Int
deriving DecidableEq

/-- Value of a decimal digit character, `none` on non-digits. -/
def digitVal (c : Char) : Option Nat :=
  if '0' ≤ c ∧ c ≤ '9' then some (c.toNat - 48) else none

/-- Two decimal digits. -/
def digits2 (a b : Char) : Option Nat := do
  let x ← digitVal a
  let y ← digitVal b
  pure (x * 10 + y)

/-- Four decimal digits. -/
def digits4 (a b c d : Char) : Option Nat := do
  let x ← digits2 a b
  let y ← digits2 c d
  pure (x * 100 + y)

/-- A run of decimal digits as a number (used for fractional seconds). -/
def digitsVal : List Char → Option Nat
  | [] => some 0
  | c :: cs => do
    let x ← digitVal c
    let y ← digitsVal cs
    pure (x * 10 ^ cs.length + y)

/-- `_parse_isoformat_date`: exactly `YYYY-MM-DD`. -/
def parseIsoDate : List Char → Option (Nat × Nat × Nat)
  | [y1, y2, y3, y4, s1, m1, m2, s2, d1, d2] => do
    if s1 = '-' ∧ s2 = '-' then
      let y ← digits4 y1 y2 y3 y4
      let m ← digits2 m1 m2
      let d ← digits2 d1 d2
      pure (y, m, d)
    else none
  | _ => none

/-- `_parse_hh_mm_ss_ff`: `HH`, `HH:MM`, `HH:MM:SS`, `HH:MM:SS.fff` or
`HH:MM:SS.ffffff` (fraction exactly 3 or 6 digits, 3 digits scaled to
microseconds).  Returns (hour, minute, second, microsecond). -/
def parseHhMmSsFf : List Char → Option (Nat × Nat × Nat × Nat)
  | [h1, h2] => do
    let h ← digits2 h1 h2
    pure (h, 0, 0, 0)
  | [h1, h2, ':', m1, m2] => do
    let h ← digits2 h1 h2
    let m ← digits2 m1 m2
    pure (h, m, 0, 0)
  | [h1, h2, ':', m1, m2, ':', s1, s2] => do
    let h ← digits2 h1 h2
    let m ← digits2 m1 m2
    let s ← digits2 s1 s2
    pure (h, m, s, 0)
  | h1 :: h2 :: ':' :: m1 :: m2 :: ':' :: s1 :: s2 :: '.' :: frac => do
    let h ← digits2 h1 h2
    let m ← digits2 m1 m2
    let s ← digits2 s1 s2
    let f ← digitsVal frac
    if frac.length = 3 then pure (h, m, s, f * 1000)
    else if frac.length = 6 then pure (h, m, s, f)
    else none
  | _ => none

/-- CPython's timezone split of the time part: at the first `-` if any,
otherwise at the first `+` if any.  Returns the time text and, when a sign was
found, the sign together with the timezone text after it. -/
def splitTzText (cs : List Char) : List Char × Option (Char × List Char) :=
  match cs.findIdx? (· = '-') with
  | some i => (cs.take i, some ('-', cs.drop (i + 1)))
  | none =>
    match cs.findIdx? (· = '+') with
    | some i => (cs.take i, some ('+', cs.drop (i + 1)))
    | none => (cs, none)

/-- `_parse_isoformat_time`: time of day plus optional UTC offset in
microseconds. -/
def parseIsoTime (cs : List Char) : Option ((Nat × Nat × Nat × Nat) × Option Int) :=
  match splitTzText cs with
  | (tstr, none) => do
    let t ← parseHhMmSsFf tstr
    pure (t, none)
  | (tstr, some (sign, tzstr)) => do
    let t ← parseHhMmSsFf tstr
    if tzstr.length = 5 ∨ tzstr.length = 8 ∨ tzstr.length = 15 then
      let (th, tm, ts, tus) ← parseHhMmSsFf tzstr
      let mag : Int := ((th * 3600 + tm * 60 + ts) * 1000000 + tus : Nat)
      pure (t, some (if sign = '-' then -mag else mag))
    else none

/-- Offset validation performed by the `timezone` constructor: strictly
between -24 and +24 hours (a naive datetime passes trivially). -/
def offsetOk : Option Int → Bool
  | none => true
  | some o => o.natAbs < 86400000000

/-- Field validation performed by the `datetime`/`timezone` constructors. -/
def mkPyDateTime (y m d hh mi ss us : Nat) (off : Option Int) : Option PyDateTime :=
  if 1 ≤ y ∧ y ≤ 9999 ∧ 1 ≤ m ∧ m ≤ 12 ∧ 1 ≤ d ∧ d ≤ daysInMonth y m ∧
      hh ≤ 23 ∧ mi ≤ 59 ∧ ss ≤ 59 ∧ us ≤ 999999 ∧ offsetOk off = true then
    some ⟨y, m, d, hh, mi, ss, us, off⟩
  else none

/-- Model of `datetime.fromisoformat`: date part is the first 10 characters,
character 11 (any character) separates the optional time part. -/
def parse_py_isoformat (s : String) : Option PyDateTime :=
  let cs := s.data
  if cs.length < 10 then none
  else
    match parseIsoDate (cs.take 10) with
    | none => none
    | some (y, m, d) =>
      match cs.drop 10 with
      | [] => mkPyDateTime y m d 0 0 0 0 none
      | _sep :: tcs =>
        match parseIsoTime tcs with
        | none => none
        | some ((hh, mi, ss, us), off) => mkPyDateTime y m d hh mi ss us off

/-- The instant denoted by a parsed datetime, in microseconds since the epoch;
a naive datetime (no offset) is read as UTC, mirroring
`expiry.replace(tzinfo=timezone.utc)` in `is_expired`. -/
def pyDatetimeInstant (dt : PyDateTime) : Int :=
  (daysFromCivil dt.year dt.month dt.day * 86400 +
      (dt.hour * 3600 + dt.minute * 60 + dt.second : Nat)) * 1000000 +
    (dt.usec : Int) - dt.offsetUs.getD 0

/-! ## Expiry evaluator (`url_utils.is_expired`, `url_utils.calculate_expiry_date`) -/

/-- Python `str.endswith` (character-based, as Python strings are sequences
of code points). -/
def pyEndsWith (s t : String) : Bool := t.data.isSuffixOf s.data

/-- Python `c in s` for a single-character needle. -/
def pyContains (s : String) (c : Char) : Bool := s.data.contains c

/-- Python `s[:-1]`. -/
def pyDropLast (s : String) : String := String.mk s.data.dropLast

/-- The timezone normalisation in `is_expired` (url_utils.py lines 159-164):
a trailing `Z` becomes `+00:00`; otherwise, when the text has no `+` but has a
`T`, `+00:00` is appended (naive text assumed UTC). -/
def normalizeExpiry (ed : String) : String :=
  if pyEndsWith ed "Z" then pyDropLast ed ++ "+00:00"
  else if ¬ pyContains ed '+' ∧ pyContains ed 'T' then ed ++ "+00:00"
  else ed

/-- `url_utils.is_expired expiry_date`, at current UTC instant `nowUs`
(microseconds since the epoch): empty text is expired; the normalised text is
parsed, any parse failure is expired; otherwise expired iff `nowUs` is
strictly greater than the denoted instant (a naive result is first made
UTC-aware). -/
def is_expired (expiry_date : String) (nowUs : Int) : Bool :=
  if expiry_date = "" then true
  else
    match parse_py_isoformat (normalizeExpiry expiry_date) with
    | none => true
    | some expiry => nowUs > pyDatetimeInstant expiry

/-- The instant `is_expired` compares against, when its input parses: the
normalisation composed with the parser and the naive-means-UTC completion. -/
def parsedExpiryInstant (ed : String) : Option Int :=
  if ed = "" then none
  else (parse_py_isoformat (normalizeExpiry ed)).map pyDatetimeInstant

/-- Left-pad the decimal form of `n` with zeros to width `w`. -/
def padNum (w n : Nat) : String :=
  let s := toString n
  String.mk (List.replicate (w - s.length) '0') ++ s

/-- `datetime.isoformat()` of an aware UTC datetime at instant `t`
(microseconds since the epoch): `YYYY-MM-DDTHH:MM:SS[.ffffff]+00:00`, the
fractional part omitted when the microseconds are zero. -/
def isoOfMicros (t : Int) : String :=
  let days : Int := t.fdiv 86400000000
  let rem : Nat := (t - days * 86400000000).toNat
  let (y, m, d) := civilFromDays days
  let secs : Nat := rem / 1000000
  let us : Nat := rem % 1000000
  padNum 4 y ++ "-" ++ padNum 2 m ++ "-" ++ padNum 2 d ++ "T" ++
    padNum 2 (secs / 3600) ++ ":" ++ padNum 2 (secs / 60 % 60) ++ ":" ++
    padNum 2 (secs % 60) ++ (if us = 0 then "" else "." ++ padNum 6 us) ++ "+00:00"

/-- `url_utils.calculate_expiry_date days` at current instant `nowUs`:
rejects non-positive `days` with a `ValueError`, otherwise renders
`now + timedelta(days=days)` in ISO format. -/
def calculate_expiry_date (days : Int) (nowUs : Int) : Except PyErr String :=
  if days ≤ 0 then
    .error (.valueError ("Days must be positive, got: " ++ toString days))
  else
    .ok (isoOfMicros (nowUs + days * 86400000000))

/-! ## Short code generator (`url_utils.generate_short_url`)

The generator hashes `f"{long_url}{timestamp}"` with SHA-256, base64url-encodes
the first 8 digest bytes (16 hex characters), strips `=` padding and truncates
to 6 characters.  SHA-256 is embedded in full (FIPS 180-4), with 32-bit words
as `Nat` reduced mod 2^32. -/

def SHORT_URL_LENGTH : Nat := 6
def DEFAULT_EXPIRY_DAYS : Nat := 60
def HASH_TRUNCATE_LENGTH : Nat := 16
def EXTENDED_HASH_LENGTH : Nat := 24
def CUSTOM_SUFFIX_MAX_LENGTH : Nat := 20
def CUSTOM_SUFFIX_MIN_LENGTH : Nat := 3

/-- Reduce to a 32-bit word. -/
def w32 (n : Nat) : Nat := n % 4294967296

/-- Right-rotate a 32-bit word by `n` (arithmetic form, for `x < 2^32`). -/
def rotr32 (n x : Nat) : Nat := x / 2 ^ n + x % 2 ^ n * 2 ^ (32 - n)

/-- Bitwise complement of a 32-bit word. -/
def not32 (x : Nat) : Nat := 4294967295 - x

def sha256Ch (e f g : Nat) : Nat := Nat.xor (Nat.land e f) (Nat.land (not32 e) g)
def sha256Maj (a b c : Nat) : Nat :=
  Nat.xor (Nat.xor (Nat.land a b) (Nat.land a c)) (Nat.land b c)
def sha256BigSigma0 (x : Nat) : Nat :=
  Nat.xor (Nat.xor (rotr32 2 x) (rotr32 13 x)) (rotr32 22 x)
def sha256BigSigma1 (x : Nat) : Nat :=
  Nat.xor (Nat.xor (rotr32 6 x) (rotr32 11 x)) (rotr32 25 x)
def sha256SmallSigma0 (x : Nat) : Nat :=
  Nat.xor (Nat.xor (rotr32 7 x) (rotr32 18 x)) (x / 2 ^ 3)
def sha256SmallSigma1 (x : Nat) : Nat :=
  Nat.xor (Nat.xor (rotr32 17 x) (rotr32 19 x)) (x / 2 ^ 10)

/-- The 64 SHA-256 round constants (FIPS 180-4, written in decimal). -/
def sha256K : Array Nat := #[
  1116352408, 1899447441, 3049323471, 3921009573, 961987163, 1508970993,
  2453635748, 2870763221, 3624381080, 310598401, 607225278, 1426881987,
  1925078388, 2162078206, 2614888103, 3248222580, 3835390401, 4022224774,
  264347078, 604807628, 770255983, 1249150122, 1555081692, 1996064986,
  2554220882, 2821834349, 2952996808, 3210313671, 3336571891, 3584528711,
  113926993, 338241895, 666307205, 773529912, 1294757372, 1396182291,
  1695183700, 1986661051, 2177026350, 2456956037, 2730485921, 2820302411,
  3259730800, 3345764771, 3516065817, 3600352804, 4094571909, 275423344,
  430227734, 506948616, 659060556, 883997877, 958139571, 1322822218,
  1537002063, 1747873779, 1955562222, 2024104815, 2227730452, 2361852424,
  2428436474, 2756734187, 3204031479, 3329325298]

/-- Big-endian byte rendering of `v` in `n` bytes. -/
def toBytesBE (n v : Nat) : List Nat :=
  (List.range n).map (fun i => v / 256 ^ (n - 1 - i) % 256)

/-- SHA-256 padding: append `0x80`, zeros to 56 mod 64, then the bit length
as 8 big-endian bytes. -/
def sha256Pad (msg : List Nat) : List Nat :=
  let L := msg.length
  let k := (119 - L % 64) % 64
  msg ++ 0x80 :: List.replicate k 0 ++ toBytesBE 8 (8 * L)

/-- Big-endian 4-byte grouping of a byte list into 32-bit words. -/
def bytesToWords : List Nat → List Nat
  | b0 :: b1 :: b2 :: b3 :: rest => (((b0 * 256 + b1) * 256 + b2) * 256 + b3) :: bytesToWords rest
  | _ => []

/-- Extend the 16 message words to the 64-entry schedule. -/
def sha256Schedule (ws : Array Nat) : Array Nat :=
  (List.range 48).foldl (fun arr _ =>
    let i := arr.size
    arr.push (w32 (arr.getD (i - 16) 0 + sha256SmallSigma0 (arr.getD (i - 15) 0) +
      arr.getD (i - 7) 0 + sha256SmallSigma1 (arr.getD (i - 2) 0)))) ws

/-- The eight 32-bit words of a SHA-256 state. -/
structure Hash8 where
  a : Nat
  b : Nat
  c : Nat
  d : Nat
  e : Nat
  f : Nat
  g : Nat
  h : Nat
deriving DecidableEq

def sha256Init : Hash8 :=
  ⟨1779033703, 3144134277, 1013904242, 2773480762, 1359893119, 2600822924, 528734635, 1541459225⟩

/-- One SHA-256 compression round applied to a 64-byte block. -/
def sha256Compress (st : Hash8) (block : List Nat) : Hash8 :=
  let ws := sha256Schedule (bytesToWords block).toArray
  let r := (List.range 64).foldl (fun (t : Hash8) i =>
    let t1 := w32 (t.h + sha256BigSigma1 t.e + sha256Ch t.e t.f t.g +
      sha256K.getD i 0 + ws.getD i 0)
    let t2 := w32 (sha256BigSigma0 t.a + sha256Maj t.a t.b t.c)
    ⟨w32 (t1 + t2), t.a, t.b, t.c, w32 (t.d + t1), t.e, t.f, t.g⟩) st
  ⟨w32 (st.a + r.a), w32 (st.b + r.b), w32 (st.c + r.c), w32 (st.d + r.d),
   w32 (st.e + r.e), w32 (st.f + r.f), w32 (st.g + r.g), w32 (st.h + r.h)⟩

/-- The 32 digest bytes of a final state. -/
def digestBytes (st : Hash8) : List Nat :=
  [st.a, st.b, st.c, st.d, st.e, st.f, st.g, st.h].flatMap (toBytesBE 4)

/-- SHA-256 digest of a byte string. -/
def sha256Bytes (msg : List Nat) : List Nat :=
  let padded := sha256Pad msg
  let blocks := (List.range (padded.length / 64)).map (fun i => (padded.drop (64 * i)).take 64)
  digestBytes (blocks.foldl sha256Compress sha256Init)

/-- Lowercase hex digit, as produced by `hexdigest()` (codepoint arithmetic:
`'0'` is 48, `'a'` is 97). -/
def hexDigitChar (n : Nat) : Char :=
  if n < 10 then Char.ofNat (48 + n) else Char.ofNat (87 + n)

/-- Value of a hex digit (either case), as accepted by `bytes.fromhex`. -/
def hexVal (c : Char) : Option Nat :=
  if '0' ≤ c ∧ c ≤ '9' then some (c.toNat - 48)
  else if 'a' ≤ c ∧ c ≤ 'f' then some (c.toNat - 87)
  else if 'A' ≤ c ∧ c ≤ 'F' then some (c.toNat - 55)
  else none

/-- The two hex characters of one byte. -/
def byteToHex2 (b : Nat) : List Char := [hexDigitChar (b / 16), hexDigitChar (b % 16)]

/-- `hashlib.sha256(msg).hexdigest()`, as a character list (Python string
slicing becomes `List.take`). -/
def sha256HexChars (msg : List Nat) : List Char := (sha256Bytes msg).flatMap byteToHex2

/-- `bytes.fromhex` on an even-length hex string.  Total model: `bytes.fromhex`
raises on malformed input, but every input fed to it here is a prefix of a
`hexdigest()` result (proved below), so the junk value on a non-hex-digit is
unreachable. -/
def bytesFromHex : List Char → List Nat
  | c1 :: c2 :: rest => ((hexVal c1).getD 0 * 16 + (hexVal c2).getD 0) :: bytesFromHex rest
  | _ => []

/-- UTF-8 bytes of a string (Python `str.encode('utf-8')`). -/
def utf8Bytes (s : String) : List Nat := s.toUTF8.toList.map (fun b => b.toNat)

/-- The base64url alphabet used by `base64.urlsafe_b64encode`. -/
def b64Alphabet : List Char :=
  "ABCDEFGHIJKLMNOPQRSTUVWXYZabcdefghijklmnopqrstuvwxyz0123456789-_".data

def b64Char (n : Nat) : Char := b64Alphabet.getD n 'A'

/-- `base64.urlsafe_b64encode` on a byte string, with `=` padding. -/
def urlsafe_b64encode : List Nat → List Char
  | [] => []
  | [b0] => [b64Char (b0 / 4), b64Char (b0 % 4 * 16), '=', '=']
  | [b0, b1] => [b64Char (b0 / 4), b64Char (b0 % 4 * 16 + b1 / 16), b64Char (b1 % 16 * 4), '=']
  | b0 :: b1 :: b2 :: rest =>
    b64Char (b0 / 4) :: b64Char (b0 % 4 * 16 + b1 / 16) ::
      b64Char (b1 % 16 * 4 + b2 / 64) :: b64Char (b2 % 64) :: urlsafe_b64encode rest

/-- The non-custom arm of `generate_short_url` (url_utils.py lines 38-57):
`timestamp` is the printed value of `datetime.now(timezone.utc).timestamp()`
at the moment of the call. -/
def genCode (long_url timestamp : String) : String :=
  let hash_input := utf8Bytes (long_url ++ timestamp)
  let hash_hex := sha256HexChars hash_input
  let hash_b64 := urlsafe_b64encode (bytesFromHex (hash_hex.take HASH_TRUNCATE_LENGTH))
  let clean_b64 := hash_b64.filter (fun c => c ≠ '=')
  let clean_b64 :=
    if clean_b64.length < SHORT_URL_LENGTH then
      (urlsafe_b64encode (bytesFromHex (hash_hex.take EXTENDED_HASH_LENGTH))).filter
        (fun c => c ≠ '=')
    else clean_b64
  String.mk (clean_b64.take SHORT_URL_LENGTH)

/-- Characters allowed in a custom suffix: `[a-zA-Z0-9_-]`. -/
def isSuffixChar (c : Char) : Bool :=
  ('a' ≤ c && c ≤ 'z') || ('A' ≤ c && c ≤ 'Z') || ('0' ≤ c && c ≤ '9') || c = '_' || c = '-'

/-- `url_utils._is_valid_custom_suffix`: nonempty, length 3..20, and matching
`^[a-zA-Z0-9_-]+$` (nonemptiness of the `+` is implied by the length bound). -/
def _is_valid_custom_suffix (s : String) : Bool :=
  if s = "" then false
  else if s.length < CUSTOM_SUFFIX_MIN_LENGTH ∨ s.length > CUSTOM_SUFFIX_MAX_LENGTH then false
  else s.data.all isSuffixChar

/-- `url_utils.generate_short_url long_url custom_suffix`, with the
generation-instant timestamp string passed explicitly.  A truthy (non-`None`,
non-empty) custom suffix is validated and echoed, raising `ValueError` when
malformed; otherwise a 6-character code is derived from the hash. -/
def generate_short_url (long_url : String) (timestamp : String)
    (custom_suffix : Option String) : Except PyErr String :=
  if optTruthy custom_suffix then
    let cs := custom_suffix.getD ""
    if ¬ _is_valid_custom_suffix cs then
      .error (.valueError ("Custom suffix must be 3-20 alphanumeric characters, got: '" ++
        cs ++ "'"))
    else .ok cs
  else .ok (genCode long_url timestamp)

/-! ## URL validation (`url_utils.is_valid_url`)

The two `re` patterns of `is_valid_url` are embedded as regular-expression
syntax trees and decided with Brzozowski derivatives.  `re.IGNORECASE` is
modelled by lowercasing the (ASCII) input and writing the character classes
in lowercase; `re.match` is match-at-start (a prefix of the input), and a
pattern ending in `$` anchors at the end of the input. -/

/-- Regular expressions over character predicates. -/
inductive RE where
  | emp
  | eps
  | chr (p : Char → Bool)
  | cat (r1 r2 : RE)
  | alt (r1 r2 : RE)
  | star (r : RE)

/-- Does the language of `r` contain the empty string? -/
def RE.nullable : RE → Bool
  | .emp => false
  | .eps => true
  | .chr _ => false
  | .cat r1 r2 => r1.nullable && r2.nullable
  | .alt r1 r2 => r1.nullable || r2.nullable
  | .star _ => true

/-- Smart alternation (drops empty branches; keeps derivatives small). -/
def RE.mkAlt : RE → RE → RE
  | .emp, r => r
  | r, .emp => r
  | r1, r2 => .alt r1 r2

/-- Smart concatenation. -/
def RE.mkCat : RE → RE → RE
  | .emp, _ => .emp
  | _, .emp => .emp
  | .eps, r => r
  | r, .eps => r
  | r1, r2 => .cat r1 r2

/-- Brzozowski derivative of `r` by the character `c`. -/
def RE.deriv : RE → Char → RE
  | .emp, _ => .emp
  | .eps, _ => .emp
  | .chr p, c => if p c then .eps else .emp
  | .cat r1 r2, c =>
    if r1.nullable then RE.mkAlt (RE.mkCat (r1.deriv c) r2) (r2.deriv c)
    else RE.mkCat (r1.deriv c) r2
  | .alt r1 r2, c => RE.mkAlt (r1.deriv c) (r2.deriv c)
  | .star r, c => RE.mkCat (r.deriv c) (.star r)

/-- Whole-string match: `r` accepts exactly `cs`. -/
def RE.matchFull (r : RE) (cs : List Char) : Bool :=
  (cs.foldl RE.deriv r).nullable

/-- Match-at-start (`re.match` with no `$`): some prefix of `cs` is in the
language of `r`. -/
def RE.matchAtStart (r : RE) (cs : List Char) : Bool :=
  match cs with
  | [] => r.nullable
  | c :: rest => r.nullable || (r.deriv c).matchAtStart rest

/-- Literal character. -/
def RE.lit (c : Char) : RE := .chr (fun x => x = c)

/-- Literal string. -/
def RE.str (s : String) : RE := s.data.foldr (fun c r => RE.mkCat (RE.lit c) r) .eps

/-- Character range `[a-b]`. -/
def RE.range (a b : Char) : RE := .chr (fun x => a ≤ x ∧ x ≤ b)

/-- `r?`. -/
def RE.opt (r : RE) : RE := .alt .eps r

/-- `r+`. -/
def RE.plus (r : RE) : RE := .cat r (.star r)

/-- `r{n}`: exactly `n` copies. -/
def RE.reps : Nat → RE → RE
  | 0, _ => .eps
  | n + 1, r => .cat r (RE.reps n r)

/-- `r{0,n}`: at most `n` copies. -/
def RE.repUpTo : Nat → RE → RE
  | 0, _ => .eps
  | n + 1, r => .alt .eps (.cat r (RE.repUpTo n r))

/-- `r{m,n}`. -/
def RE.repRange (m n : Nat) (r : RE) : RE := .cat (RE.reps m r) (RE.repUpTo (n - m) r)

/-- ASCII lowercasing (the effect of `re.IGNORECASE` on these patterns). -/
def pyLower (c : Char) : Char :=
  if 'A' ≤ c ∧ c ≤ 'Z' then Char.ofNat (c.toNat + 32) else c

/-- `\S`: not an ASCII whitespace character. -/
def isNonSpace (c : Char) : Bool :=
  !(c = ' ' || c = '\t' || c = '\n' || c = '\x0d' || c = '\x0c' || c = '\x0b')

/-- The SSRF guard pattern of `is_valid_url` (lines 96-105), lowercased:
`^https?://(?:10\.|172\.(?:1[6-9]|2[0-9]|3[01])\.|192\.168\.|127\.|169\.254\.|0\.)`. -/
def private_ip_pattern : RE :=
  let range172 := RE.alt (RE.cat (RE.lit '1') (RE.range '6' '9'))
    (RE.alt (RE.cat (RE.lit '2') (RE.range '0' '9')) (RE.cat (RE.lit '3') (RE.range '0' '1')))
  let privNet := RE.alt (RE.str "10.")
    (RE.alt (RE.cat (RE.str "172.") (RE.cat range172 (RE.lit '.')))
      (RE.alt (RE.str "192.168.")
        (RE.alt (RE.str "127.") (RE.alt (RE.str "169.254.") (RE.str "0.")))))
  RE.cat (RE.str "http") (RE.cat (RE.opt (RE.lit 's')) (RE.cat (RE.str "://") privNet))

/-- One IPv4 octet: `25[0-5]|2[0-4][0-9]|[01]?[0-9][0-9]?`. -/
def ipOctet : RE :=
  RE.alt (.cat (RE.str "25") (RE.range '0' '5'))
    (RE.alt (.cat (RE.lit '2') (.cat (RE.range '0' '4') (RE.range '0' '9')))
      (.cat (RE.opt (RE.range '0' '1'))
        (.cat (RE.range '0' '9') (RE.opt (RE.range '0' '9')))))

/-- A domain label with its trailing dot:
`[A-Z0-9](?:[A-Z0-9-]{0,61}[A-Z0-9])?\.` (lowercased). -/
def domainLabel : RE :=
  .cat (RE.alt (RE.range 'a' 'z') (RE.range '0' '9'))
    (.cat (RE.opt (.cat
        (RE.repUpTo 61 (RE.alt (RE.range 'a' 'z') (RE.alt (RE.range '0' '9') (RE.lit '-'))))
        (RE.alt (RE.range 'a' 'z') (RE.range '0' '9'))))
      (RE.lit '.'))

/-- The URL shape pattern of `is_valid_url` (lines 111-120), lowercased:
scheme, then domain / `localhost` / dotted-quad IP, optional port, and
`(?:/?|[/?]\S+)$`. -/
def url_pattern : RE :=
  let host := RE.alt
    (RE.cat (RE.plus domainLabel)
      (RE.cat (RE.repRange 2 6 (RE.range 'a' 'z')) (RE.opt (RE.lit '.'))))
    (RE.alt (RE.str "localhost")
      (RE.cat (RE.reps 3 (RE.cat ipOctet (RE.lit '.'))) ipOctet))
  let port := RE.opt (RE.cat (RE.lit ':') (RE.plus (RE.range '0' '9')))
  let path := RE.alt (RE.opt (RE.lit '/'))
    (RE.cat (RE.alt (RE.lit '/') (RE.lit '?')) (RE.plus (RE.chr isNonSpace)))
  RE.cat (RE.str "http") (RE.cat (RE.opt (RE.lit 's'))
    (RE.cat (RE.str "://") (RE.cat host (RE.cat port path))))

/-- `url_utils.is_valid_url`: rejects empty or over-long input, then the SSRF
guard (match at start), then requires the URL shape to match the whole
input. -/
def is_valid_url (url : String) : Bool :=
  if url = "" ∨ url.length > 2048 then false
  else
    let low := url.data.map pyLower
    if private_ip_pattern.matchAtStart low then false
    else url_pattern.matchFull low

/-! ## Mapping store (`src/commons/dynamodb_utils.py`)

DynamoDB itself is the external collaborator; its answer to the n-th
conditional-write call is an oracle `Nat → StoreResp`.  `_handle_client_error`
converts a `ConditionalCheckFailedException` into `ConflictError` and any
other client error into `DatabaseError`. -/

/-- A `UrlMapping` item as written by `create_url_mapping`. -/
structure UrlMapping where
  shortId : String
  longUrl : String
  createdAt : String
  expiryDate : String
  ttlTimestamp : Int
  clickCount : Nat
deriving DecidableEq

/-- The store's answer to one conditional `put_item`: success, a
`ConditionalCheckFailedException` (key already present), or any other
`ClientError` (carrying its message). -/
inductive StoreResp where
  | ok
  | conflict
  | dbError (msg : String)
deriving DecidableEq

/-- `dynamodb_utils.create_url_mapping` on one store answer: builds the item
and converts store errors via `_handle_client_error` (conditional-check
failure ⇒ `ConflictError`, anything else ⇒ `DatabaseError`). -/
def create_url_mapping (resp : StoreResp) (short_id long_url expiry_date : String)
    (ttl_timestamp : Int) (created_at : String) : Except PyErr UrlMapping :=
  match resp with
  | .ok => .ok ⟨short_id, long_url, created_at, expiry_date, ttl_timestamp, 0⟩
  | .conflict => .error (.conflictError "Resource already exists or condition not met")
  | .dbError m => .error (.databaseError ("Database error: create_url_mapping failed: " ++ m))

/-- `dynamodb_utils.find_existing_url` on the items the secondary index holds
for the queried `longUrl`: the DynamoDB `FilterExpression` keeps items with
`ttlTimestamp > int(now.timestamp())`, then the first item whose `expiryDate`
is not expired is returned. -/
def find_existing_url (items : List UrlMapping) (nowUs : Int) : Option UrlMapping :=
  let filtered := items.filter (fun it => it.ttlTimestamp > Int.tdiv nowUs 1000000)
  filtered.find? (fun it => ¬ is_expired it.expiryDate nowUs)

/-- The aliveness test of the resolve path (redirectURL.py line 63): a mapping
is alive iff `is_expired` on its `expiryDate` is false. -/
def resolveAlive (it : UrlMapping) (nowUs : Int) : Bool := !is_expired it.expiryDate nowUs

/-! ## Creation orchestrator
(`getOrCreateShortURL.create_short_url_with_retry`) -/

def MAX_COLLISION_RETRIES : Nat := 3

deriving instance DecidableEq for Except

/-- Outcome of the orchestrator: the Python return value or the exception that
escapes it, together with the trace of conditional-write calls actually issued
(the `shortId` of each call, in order). -/
structure RetryResult where
  result : Except PyErr (String × UrlMapping)
  writes : List String
deriving DecidableEq

/-- Is this outcome a raised `DatabaseError` (the exception class shared by
generic storage failures and the exhaustion path)? -/
def errIsDatabase : Except PyErr (String × UrlMapping) → Bool
  | .error (.databaseError _) => true
  | _ => false

/-- `expiry_date.replace('Z', '+00:00')` (replaces every `Z`). -/
def replaceZ (s : String) : String :=
  String.mk (s.data.flatMap (fun c => if c = 'Z' then "+00:00".data else [c]))

/-- The attempt loop of `create_short_url_with_retry` (lines 177-213), with
`remaining` attempts left and `attempt` the current 0-based index.  `hashTs n`
is the timestamp `generate_short_url` reads on attempt `n`; `entropyTs n` is
the `get_current_timestamp()` mixed into the hash input on attempt `n > 0`;
the store answers call number `acc.length`.  Exhausting the loop bound raises
`DatabaseError`; the `for`-loop fallthrough (unreachable in Python) is the
`remaining = 0` case. -/
def retryLoop (long_url : String) (custom_suffix : Option String)
    (expiry_date : String) (ttl_timestamp : Int) (created_at : String)
    (hashTs entropyTs : Nat → String) (store : Nat → StoreResp) :
    Nat → Nat → List String → RetryResult
  | 0, _, acc => ⟨.error (.databaseError "Database error: Unexpected error in short URL creation"), acc⟩
  | remaining + 1, attempt, acc =>
    let genRes : Except PyErr String :=
      if optTruthy custom_suffix ∧ attempt = 0 then
        generate_short_url long_url (hashTs attempt) custom_suffix
      else
        let entropy_suffix :=
          if attempt > 0 then "_" ++ toString attempt ++ "_" ++ entropyTs attempt else ""
        generate_short_url (long_url ++ entropy_suffix) (hashTs attempt) none
    match genRes with
    | .error e => ⟨.error e, acc⟩
    | .ok short_id =>
      match create_url_mapping (store acc.length) short_id long_url expiry_date
          ttl_timestamp created_at with
      | .ok item => ⟨.ok (short_id, item), acc ++ [short_id]⟩
      | .error (.conflictError m) =>
        if optTruthy custom_suffix then
          ⟨.error (.conflictError m), acc ++ [short_id]⟩
        else if attempt = MAX_COLLISION_RETRIES - 1 then
          ⟨.error (.databaseError
            "Database error: Unable to generate unique short URL after multiple attempts"),
            acc ++ [short_id]⟩
        else
          retryLoop long_url custom_suffix expiry_date ttl_timestamp created_at
            hashTs entropyTs store remaining (attempt + 1) (acc ++ [short_id])
      | .error e => ⟨.error e, acc ++ [short_id]⟩

/-- `getOrCreateShortURL.create_short_url_with_retry`: computes the expiry
date and TTL once (lines 170-175), then runs the attempt loop. -/
def create_short_url_with_retry (long_url : String) (custom_suffix : Option String)
    (nowUs : Int) (created_at : String) (hashTs entropyTs : Nat → String)
    (store : Nat → StoreResp) : RetryResult :=
  match calculate_expiry_date (DEFAULT_EXPIRY_DAYS : Nat) nowUs with
  | .error e => ⟨.error e, []⟩
  | .ok expiry_date =>
    let toParse := if pyEndsWith expiry_date "Z" then replaceZ expiry_date else expiry_date
    match parse_py_isoformat toParse with
    | none => ⟨.error (.valueError ("Invalid isoformat string: '" ++ toParse ++ "'")), []⟩
    | some dt =>
      let ttl_timestamp : Int := Int.tdiv (pyDatetimeInstant dt) 1000000
      retryLoop long_url custom_suffix expiry_date ttl_timestamp created_at
        hashTs entropyTs store MAX_COLLISION_RETRIES 0 []

/-! ## Create-or-get handler (`getOrCreateShortURL.lambda_handler`) -/

/-- The response classes the create-or-get handler can produce, keyed by the
`except` clause that builds them (lines 107-151); `internalErr` is the generic
`except Exception` arm (HTTP 500 "Internal server error"). -/
inductive CreateResp where
  | okExisting (shortId longUrl expiryDate : String)
  | okCreated (shortId longUrl expiryDate : String)
  | validationErr (msg : String)
  | conflictErr (msg : String)
  | dbErr
  | internalErr
deriving DecidableEq

/-- Handler outcome plus the store-write trace of the request. -/
structure CreateResult where
  response : CreateResp
  writes : List String
deriving DecidableEq

/-- `getOrCreateShortURL.lambda_handler`, after request parsing: `longUrl` and
`customSuffix` are the body fields (absent = `none`), `dedupItems` is what the
secondary-index query returns for this `longUrl`, and the clocks and the
store oracle are as in `create_short_url_with_retry`. -/
def getOrCreate_lambda_handler (longUrl customSuffix : Option String)
    (dedupItems : List UrlMapping) (nowUs : Int) (created_at : String)
    (hashTs entropyTs : Nat → String) (store : Nat → StoreResp) : CreateResult :=
  if ¬ optTruthy longUrl then ⟨.validationErr "Missing required field: longUrl", []⟩
  else
    let long_url := longUrl.getD ""
    if ¬ is_valid_url long_url then ⟨.validationErr "Invalid URL format", []⟩
    else
      match find_existing_url dedupItems nowUs with
      | some item => ⟨.okExisting item.shortId item.longUrl item.expiryDate, []⟩
      | none =>
        let r := create_short_url_with_retry long_url customSuffix nowUs created_at
          hashTs entropyTs store
        match r.result with
        | .ok (short_id, item) => ⟨.okCreated short_id long_url item.expiryDate, r.writes⟩
        | .error (.validationError m) => ⟨.validationErr m, r.writes⟩
        | .error (.conflictError m) => ⟨.conflictErr m, r.writes⟩
        | .error (.databaseError _) => ⟨.dbErr, r.writes⟩
        | .error _ => ⟨.internalErr, r.writes⟩

/-! ## Resolve handler (`redirectURL.lambda_handler`) -/

/-- The response classes of the resolve path: 302 redirect, 404 not-found,
410 gone, 400 missing id, 500 "Service temporarily unavailable" on
`DatabaseError`. -/
inductive RedirectResp where
  | redirect (location : String)
  | notFound (shortId : String)
  | gone (shortId expiredAt : String)
  | badRequest (msg : String)
  | unavailable
deriving DecidableEq

/-- Resolve outcome plus whether the best-effort counter increment was
attempted (`update_click_count` called); when `false`, `clickCount` and
`lastAccessedAt` are untouched. -/
structure RedirectResult where
  response : RedirectResp
  counterAttempted : Bool
deriving DecidableEq

/-- `redirectURL.lambda_handler`, after path parsing: `short_id` is the
extracted path parameter, `lookupRes` the result of `get_url_by_short_id`
(`.error` = the store raised `DatabaseError`), `nowUs` the current instant. -/
def redirectURL_lambda_handler (short_id : Option String)
    (lookupRes : Except String (Option UrlMapping)) (nowUs : Int) : RedirectResult :=
  if ¬ optTruthy short_id then ⟨.badRequest "Missing short URL identifier", false⟩
  else
    let sid := short_id.getD ""
    match lookupRes with
    | .error _ => ⟨.unavailable, false⟩
    | .ok none => ⟨.notFound sid, false⟩
    | .ok (some item) =>
      if is_expired item.expiryDate nowUs then ⟨.gone sid item.expiryDate, false⟩
      else ⟨.redirect item.longUrl, true⟩

/-- The hash input of a generated-code attempt: the long URL plus, on retries,
the attempt index and a fresh timestamp (getOrCreateShortURL.py line 184). -/
def attemptInput (long_url : String) (entropyTs : Nat → String) (attempt : Nat) : String :=
  long_url ++ (if attempt > 0 then "_" ++ toString attempt ++ "_" ++ entropyTs attempt else "")

/-! ## Shape of the generated code (lemmas for the generator) -/

theorem toBytesBE_length (n v : Nat) : (toBytesBE n v).length = n := by
  simp [toBytesBE]

theorem toBytesBE_lt (n v : Nat) : ∀ b ∈ toBytesBE n v, b < 256 := by
  intro b hb
  simp only [toBytesBE, List.mem_map] at hb
  obtain ⟨i, -, rfl⟩ := hb
  exact Nat.mod_lt _ (by norm_num)

theorem sha256Bytes_length (msg : List Nat) : (sha256Bytes msg).length = 32 := by
  simp [sha256Bytes, digestBytes, List.length_flatMap, Function.comp, toBytesBE_length]

theorem sha256Bytes_lt (msg : List Nat) : ∀ b ∈ sha256Bytes msg, b < 256 := by
  intro b hb
  simp only [sha256Bytes, digestBytes, List.mem_flatMap] at hb
  obtain ⟨w, -, hw⟩ := hb
  exact toBytesBE_lt _ _ _ hw

theorem hexVal_hexDigitChar : ∀ n, n < 16 → hexVal (hexDigitChar n) = some n := by decide

theorem take_two_flatMap (bs : List Nat) (k : Nat) :
    (bs.flatMap byteToHex2).take (2 * k) = (bs.take k).flatMap byteToHex2 := by
  induction bs generalizing k with
  | nil => simp
  | cons b bs ih =>
    cases k with
    | zero => simp
    | succ k =>
      have h2 : (byteToHex2 b).length = 2 := rfl
      rw [List.flatMap_cons, List.take_append_eq_append_take, h2,
        List.take_of_length_le (by rw [h2]; omega),
        show 2 * (k + 1) - 2 = 2 * k by omega, ih,
        List.take_succ_cons, List.flatMap_cons]

theorem bytesFromHex_flatMap (bs : List Nat) (h : ∀ b ∈ bs, b < 256) :
    bytesFromHex (bs.flatMap byteToHex2) = bs := by
  induction bs with
  | nil => rfl
  | cons b bs ih =>
    have hb : b < 256 := h b (List.mem_cons_self b bs)
    rw [List.flatMap_cons]
    show bytesFromHex (hexDigitChar (b / 16) :: hexDigitChar (b % 16) :: bs.flatMap byteToHex2) = _
    rw [bytesFromHex, hexVal_hexDigitChar _ (by omega), hexVal_hexDigitChar _ (by omega)]
    simp only [Option.getD_some]
    rw [ih (fun x hx => h x (List.mem_cons_of_mem _ hx))]
    congr 1
    omega

theorem b64Alphabet_length : b64Alphabet.length = 64 := rfl

theorem b64Char_good (n : Nat) : isSuffixChar (b64Char n) = true ∧ b64Char n ≠ '=' := by
  by_cases h : n < 64
  · exact (by decide : ∀ m, m < 64 → isSuffixChar (b64Char m) = true ∧ b64Char m ≠ '=') n h
  · unfold b64Char
    rw [List.getD_eq_default _ _ (by rw [b64Alphabet_length]; omega)]
    exact ⟨rfl, by decide⟩

theorem filter_neq_cons_keep (c : Char) (l : List Char) (h : c ≠ '=') :
    (c :: l).filter (fun x => x ≠ '=') = c :: l.filter (fun x => x ≠ '=') := by
  simp [List.filter_cons, h]

theorem filter_neq_cons_drop (l : List Char) :
    ('=' :: l).filter (fun x => x ≠ '=') = l.filter (fun x => x ≠ '=') := by
  simp [List.filter_cons]

/-- Recursion principle matching the 3-byte grouping of `urlsafe_b64encode`. -/
theorem b64Induction {motive : List Nat → Prop} (h0 : motive []) (h1 : ∀ b, motive [b])
    (h2 : ∀ a b, motive [a, b])
    (h3 : ∀ a b c rest, motive rest → motive (a :: b :: c :: rest)) :
    ∀ l, motive l
  | [] => h0
  | [b] => h1 b
  | [a, b] => h2 a b
  | a :: b :: c :: rest => h3 a b c rest (b64Induction h0 h1 h2 h3 rest)

theorem b64_clean_length (bs : List Nat) :
    ((urlsafe_b64encode bs).filter (fun c => c ≠ '=')).length = (4 * bs.length + 2) / 3 := by
  induction bs using b64Induction with
  | h0 => rfl
  | h1 b =>
    rw [urlsafe_b64encode, filter_neq_cons_keep _ _ (b64Char_good _).2,
      filter_neq_cons_keep _ _ (b64Char_good _).2, filter_neq_cons_drop, filter_neq_cons_drop]
    simp
  | h2 a b =>
    rw [urlsafe_b64encode, filter_neq_cons_keep _ _ (b64Char_good _).2,
      filter_neq_cons_keep _ _ (b64Char_good _).2, filter_neq_cons_keep _ _ (b64Char_good _).2,
      filter_neq_cons_drop]
    simp
  | h3 a b c rest ih =>
    rw [urlsafe_b64encode, filter_neq_cons_keep _ _ (b64Char_good _).2,
      filter_neq_cons_keep _ _ (b64Char_good _).2, filter_neq_cons_keep _ _ (b64Char_good _).2,
      filter_neq_cons_keep _ _ (b64Char_good _).2]
    simp only [List.length_cons, ih]
    omega

theorem b64_chars (bs : List Nat) :
    ∀ c ∈ urlsafe_b64encode bs, c = '=' ∨ isSuffixChar c = true := by
  induction bs using b64Induction with
  | h0 => intro c hc; simp [urlsafe_b64encode] at hc
  | h1 b =>
    intro c hc
    simp only [urlsafe_b64encode, List.mem_cons, List.not_mem_nil, or_false] at hc
    rcases hc with rfl | rfl | rfl | rfl
    · exact .inr (b64Char_good _).1
    · exact .inr (b64Char_good _).1
    · exact .inl rfl
    · exact .inl rfl
  | h2 a b =>
    intro c hc
    simp only [urlsafe_b64encode, List.mem_cons, List.not_mem_nil, or_false] at hc
    rcases hc with rfl | rfl | rfl | rfl
    · exact .inr (b64Char_good _).1
    · exact .inr (b64Char_good _).1
    · exact .inr (b64Char_good _).1
    · exact .inl rfl
  | h3 a b c rest ih =>
    intro x hx
    simp only [urlsafe_b64encode, List.mem_cons] at hx
    rcases hx with rfl | rfl | rfl | rfl | hx
    · exact .inr (b64Char_good _).1
    · exact .inr (b64Char_good _).1
    · exact .inr (b64Char_good _).1
    · exact .inr (b64Char_good _).1
    · exact ih x hx

/-- The generated (non-custom) code always has exactly 6 characters, all in
`[A-Za-z0-9_-]`: the first 8 digest bytes give 11 base64url characters after
padding removal, so the under-6 fallback is never taken and truncation to 6
succeeds. -/
theorem genCode_spec (url ts : String) :
    (genCode url ts).length = SHORT_URL_LENGTH ∧
    (genCode url ts).data.all isSuffixChar = true := by
  have hlen32 := sha256Bytes_length (utf8Bytes (url ++ ts))
  have hlt := sha256Bytes_lt (utf8Bytes (url ++ ts))
  have htake : (sha256HexChars (utf8Bytes (url ++ ts))).take HASH_TRUNCATE_LENGTH =
      ((sha256Bytes (utf8Bytes (url ++ ts))).take 8).flatMap byteToHex2 := by
    rw [sha256HexChars, show HASH_TRUNCATE_LENGTH = 2 * 8 from rfl, take_two_flatMap]
  have hbytes : bytesFromHex (((sha256Bytes (utf8Bytes (url ++ ts))).take 8).flatMap byteToHex2) =
      (sha256Bytes (utf8Bytes (url ++ ts))).take 8 :=
    bytesFromHex_flatMap _ (fun b hb => hlt b (List.take_subset _ _ hb))
  have hlen8 : ((sha256Bytes (utf8Bytes (url ++ ts))).take 8).length = 8 := by
    rw [List.length_take, hlen32]; decide
  have hclean : ((urlsafe_b64encode ((sha256Bytes (utf8Bytes (url ++ ts))).take 8)).filter
      (fun c => c ≠ '=')).length = 11 := by
    rw [b64_clean_length, hlen8]
  simp only [genCode]
  rw [htake, hbytes, if_neg (by rw [hclean]; decide)]
  constructor
  · show (String.mk _).length = SHORT_URL_LENGTH
    show (List.take SHORT_URL_LENGTH _).length = SHORT_URL_LENGTH
    rw [List.length_take, hclean]
    decide
  · rw [List.all_eq_true]
    intro c hc
    show isSuffixChar c = true
    have hc' := List.take_subset _ _ hc
    have hmem := List.mem_filter.mp hc'
    rcases b64_chars _ c hmem.1 with rfl | hok
    · simp at hmem
    · exact hok

/-! ## Unfolding lemmas for the attempt loop -/

theorem retryLoop_gen_ok (url ed ca : String) (ttl : Int) (hashTs entropyTs : Nat → String)
    (store : Nat → StoreResp) (r attempt : Nat) (acc : List String)
    (hstore : store acc.length = .ok) :
    retryLoop url none ed ttl ca hashTs entropyTs store (r + 1) attempt acc =
      ⟨.ok (genCode (attemptInput url entropyTs attempt) (hashTs attempt),
        ⟨genCode (attemptInput url entropyTs attempt) (hashTs attempt), url, ca, ed, ttl, 0⟩),
       acc ++ [genCode (attemptInput url entropyTs attempt) (hashTs attempt)]⟩ := by
  rw [retryLoop]
  rw [if_neg (by simp [optTruthy])]
  rw [show generate_short_url (url ++ (if attempt > 0 then
      "_" ++ toString attempt ++ "_" ++ entropyTs attempt else "")) (hashTs attempt) none =
    .ok (genCode (attemptInput url entropyTs attempt) (hashTs attempt)) from rfl]
  rw [hstore]
  rfl

theorem retryLoop_gen_conflict_step (url ed ca : String) (ttl : Int)
    (hashTs entropyTs : Nat → String) (store : Nat → StoreResp) (r attempt : Nat)
    (acc : List String) (hstore : store acc.length = .conflict)
    (hlast : attempt ≠ MAX_COLLISION_RETRIES - 1) :
    retryLoop url none ed ttl ca hashTs entropyTs store (r + 1) attempt acc =
      retryLoop url none ed ttl ca hashTs entropyTs store r (attempt + 1)
        (acc ++ [genCode (attemptInput url entropyTs attempt) (hashTs attempt)]) := by
  rw [retryLoop]
  rw [if_neg (by simp [optTruthy])]
  rw [show generate_short_url (url ++ (if attempt > 0 then
      "_" ++ toString attempt ++ "_" ++ entropyTs attempt else "")) (hashTs attempt) none =
    .ok (genCode (attemptInput url entropyTs attempt) (hashTs attempt)) from rfl]
  rw [hstore]
  show (if optTruthy none = true then _ else if attempt = MAX_COLLISION_RETRIES - 1 then _ else _) = _
  rw [if_neg (by simp [optTruthy]), if_neg hlast]

theorem retryLoop_gen_conflict_last (url ed ca : String) (ttl : Int)
    (hashTs entropyTs : Nat → String) (store : Nat → StoreResp) (r attempt : Nat)
    (acc : List String) (hstore : store acc.length = .conflict)
    (hlast : attempt = MAX_COLLISION_RETRIES - 1) :
    retryLoop url none ed ttl ca hashTs entropyTs store (r + 1) attempt acc =
      ⟨.error (.databaseError
        "Database error: Unable to generate unique short URL after multiple attempts"),
       acc ++ [genCode (attemptInput url entropyTs attempt) (hashTs attempt)]⟩ := by
  rw [retryLoop]
  rw [if_neg (by simp [optTruthy])]
  rw [show generate_short_url (url ++ (if attempt > 0 then
      "_" ++ toString attempt ++ "_" ++ entropyTs attempt else "")) (hashTs attempt) none =
    .ok (genCode (attemptInput url entropyTs attempt) (hashTs attempt)) from rfl]
  rw [hstore]
  show (if optTruthy none = true then _ else if attempt = MAX_COLLISION_RETRIES - 1 then _ else _) = _
  rw [if_neg (by simp [optTruthy]), if_pos hlast]

theorem retryLoop_custom_conflict (url cs ed ca : String) (ttl : Int)
    (hashTs entropyTs : Nat → String) (store : Nat → StoreResp) (r : Nat)
    (hne : cs ≠ "") (hvalid : _is_valid_custom_suffix cs = true)
    (hstore : store 0 = .conflict) :
    retryLoop url (some cs) ed ttl ca hashTs entropyTs store (r + 1) 0 [] =
      ⟨.error (.conflictError "Resource already exists or condition not met"), [cs]⟩ := by
  rw [retryLoop]
  rw [if_pos (by simp [optTruthy, hne])]
  rw [show generate_short_url url (hashTs 0) (some cs) = .ok cs by
    simp [generate_short_url, optTruthy, hne, hvalid]]
  rw [show ([] : List String).length = 0 from rfl, hstore]
  show (if optTruthy (some cs) = true then _ else _) = _
  rw [if_pos (by simp [optTruthy, hne])]
  rfl

theorem retryLoop_step0_conflict (url ed ca : String) (ttl : Int)
    (hashTs entropyTs : Nat → String) (store : Nat → StoreResp)
    (hstore : store 0 = .conflict) :
    retryLoop url none ed ttl ca hashTs entropyTs store 3 0 [] =
      retryLoop url none ed ttl ca hashTs entropyTs store 2 1 [genCode url (hashTs 0)] := by
  have h := retryLoop_gen_conflict_step url ed ca ttl hashTs entropyTs store 2 0 [] hstore
    (by decide)
  simp only [attemptInput, gt_iff_lt, Nat.lt_irrefl, if_false, String.append_empty,
    List.nil_append] at h
  exact h

theorem retryLoop_step1_conflict (url ed ca : String) (ttl : Int)
    (hashTs entropyTs : Nat → String) (store : Nat → StoreResp) (c0 : String)
    (hstore : store 1 = .conflict) :
    retryLoop url none ed ttl ca hashTs entropyTs store 2 1 [c0] =
      retryLoop url none ed ttl ca hashTs entropyTs store 1 2
        [c0, genCode (url ++ ("_1_" ++ entropyTs 1)) (hashTs 1)] := by
  have h := retryLoop_gen_conflict_step url ed ca ttl hashTs entropyTs store 1 1 [c0] hstore
    (by decide)
  rw [show attemptInput url entropyTs 1 = url ++ ("_1_" ++ entropyTs 1) from rfl] at h
  exact h

theorem retryLoop_step2_exhaust (url ed ca : String) (ttl : Int)
    (hashTs entropyTs : Nat → String) (store : Nat → StoreResp) (c0 c1 : String)
    (hstore : store 2 = .conflict) :
    retryLoop url none ed ttl ca hashTs entropyTs store 1 2 [c0, c1] =
      ⟨.error (.databaseError
        "Database error: Unable to generate unique short URL after multiple attempts"),
       [c0, c1, genCode (url ++ ("_2_" ++ entropyTs 2)) (hashTs 2)]⟩ := by
  have h := retryLoop_gen_conflict_last url ed ca ttl hashTs entropyTs store 0 2 [c0, c1]
    hstore rfl
  rw [show attemptInput url entropyTs 2 = url ++ ("_2_" ++ entropyTs 2) from rfl] at h
  exact h

theorem retryLoop_step2_ok (url ed ca : String) (ttl : Int)
    (hashTs entropyTs : Nat → String) (store : Nat → StoreResp) (c0 c1 : String)
    (hstore : store 2 = .ok) :
    retryLoop url none ed ttl ca hashTs entropyTs store 1 2 [c0, c1] =
      ⟨.ok (genCode (url ++ ("_2_" ++ entropyTs 2)) (hashTs 2),
        ⟨genCode (url ++ ("_2_" ++ entropyTs 2)) (hashTs 2), url, ca, ed, ttl, 0⟩),
       [c0, c1, genCode (url ++ ("_2_" ++ entropyTs 2)) (hashTs 2)]⟩ := by
  have h := retryLoop_gen_ok url ed ca ttl hashTs entropyTs store 0 2 [c0, c1] hstore
  rw [show attemptInput url entropyTs 2 = url ++ ("_2_" ++ entropyTs 2) from rfl] at h
  exact h

theorem retryLoop_step0_ok (url ed ca : String) (ttl : Int)
    (hashTs entropyTs : Nat → String) (store : Nat → StoreResp)
    (hstore : store 0 = .ok) :
    retryLoop url none ed ttl ca hashTs entropyTs store 3 0 [] =
      ⟨.ok (genCode url (hashTs 0), ⟨genCode url (hashTs 0), url, ca, ed, ttl, 0⟩),
       [genCode url (hashTs 0)]⟩ := by
  have h := retryLoop_gen_ok url ed ca ttl hashTs entropyTs store 2 0 [] hstore
  simp only [attemptInput, gt_iff_lt, Nat.lt_irrefl, if_false, String.append_empty,
    List.nil_append] at h
  exact h

/-- The expiry text and TTL computed once per request at `nowUs = 0`
(1970-01-01): sixty days later, rendered and re-parsed as in lines 170-175. -/
theorem expiry_at_zero :
    calculate_expiry_date (DEFAULT_EXPIRY_DAYS : Nat) 0 = .ok "1970-03-02T00:00:00+00:00" ∧
    parse_py_isoformat "1970-03-02T00:00:00+00:00" =
      some ⟨1970, 3, 2, 0, 0, 0, 0, some 0⟩ := ⟨rfl, rfl⟩

theorem create_retry_unfold (url ca : String) (cs : Option String)
    (hashTs entropyTs : Nat → String) (store : Nat → StoreResp) :
    create_short_url_with_retry url cs 0 ca hashTs entropyTs store =
      retryLoop url cs "1970-03-02T00:00:00+00:00" 5184000 ca hashTs entropyTs store 3 0 [] := by
  rfl

/-! ## Claim theorems -/

/-- C7: for every long URL and every generation instant (timestamp text), the
generated (non-custom) short code has length exactly 6 and every character in
`[A-Za-z0-9_-]`; the padding-stripped base64 text always has at least 6
characters (11, in fact), so 6 characters are always produced. -/
theorem C7_generated_code_length_and_charset (url ts : String) :
    generate_short_url url ts none = .ok (genCode url ts) ∧
    (genCode url ts).length = 6 ∧
    (genCode url ts).data.all isSuffixChar = true :=
  ⟨rfl, (genCode_spec url ts).1, (genCode_spec url ts).2⟩

/-- C10: an empty-string custom suffix is treated exactly like an absent one:
`generate_short_url` does not fail validation (the empty string is falsy, so
validation is never consulted) and returns the freshly generated 6-character
code. -/
theorem C10_empty_suffix_like_absent (url ts : String) :
    generate_short_url url ts (some "") = generate_short_url url ts none ∧
    generate_short_url url ts (some "") = .ok (genCode url ts) ∧
    (genCode url ts).length = 6 :=
  ⟨rfl, rfl, (genCode_spec url ts).1⟩

/-- C8: `is_expired` returns `true` on empty input and on every input whose
normalised text fails to parse; on every successfully parsed input it returns
`true` exactly when the current UTC instant is strictly greater than the
parsed expiry instant, so exact equality is not expired. -/
theorem C8_is_expired_fail_safe_and_strict (ed : String) (nowUs : Int) :
    (ed = "" → is_expired ed nowUs = true) ∧
    (parsedExpiryInstant ed = none → is_expired ed nowUs = true) ∧
    (∀ t, parsedExpiryInstant ed = some t → is_expired ed nowUs = decide (nowUs > t)) := by
  unfold is_expired parsedExpiryInstant
  by_cases he : ed = ""
  · simp [he]
  · rw [if_neg he, if_neg he]
    cases hp : parse_py_isoformat (normalizeExpiry ed) with
    | none =>
      refine ⟨fun h => absurd h he, fun _ => rfl, fun t ht => ?_⟩
      simp at ht
    | some dt =>
      refine ⟨fun h => absurd h he, fun h => ?_, fun t ht => ?_⟩
      · simp at h
      · simp at ht
        show decide (nowUs > pyDatetimeInstant dt) = decide (nowUs > t)
        rw [ht]

/-- C8 witness: concrete evaluations through the theorem — empty and
unparseable inputs are expired; an instant strictly after now is alive; at
exact equality the mapping is still alive; one microsecond past it is
expired. -/
theorem C8_witness :
    is_expired "" 0 = true ∧
    is_expired "not-a-date" 0 = true ∧
    is_expired "2030-01-01T00:00:00" 1893456000000000 = false ∧
    is_expired "2030-01-01T00:00:00" 1893456000000001 = true :=
  ⟨(C8_is_expired_fail_safe_and_strict "" 0).1 rfl,
   (C8_is_expired_fail_safe_and_strict "not-a-date" 0).2.1 rfl,
   ((C8_is_expired_fail_safe_and_strict "2030-01-01T00:00:00" 1893456000000000).2.2
     1893456000000000 rfl).trans (by decide),
   ((C8_is_expired_fail_safe_and_strict "2030-01-01T00:00:00" 1893456000000001).2.2
     1893456000000000 rfl).trans (by decide)⟩

/-- C1 counterexample: the expiry text `2030-01-01T00:00:00-05:00` carries an
explicit negative numeric offset and denotes an instant strictly after `now`
(the epoch), yet `is_expired` reports it expired: the normalisation appends
`+00:00` (because no `+` occurs in the text), producing an unparseable string,
so the explicit-offset input is treated as a parse failure. -/
theorem C1_counterexample :
    parse_py_isoformat "2030-01-01T00:00:00-05:00" =
      some ⟨2030, 1, 1, 0, 0, 0, 0, some (-18000000000)⟩ ∧
    (0 : Int) < pyDatetimeInstant ⟨2030, 1, 1, 0, 0, 0, 0, some (-18000000000)⟩ ∧
    normalizeExpiry "2030-01-01T00:00:00-05:00" = "2030-01-01T00:00:00-05:00+00:00" ∧
    parse_py_isoformat "2030-01-01T00:00:00-05:00+00:00" = none ∧
    is_expired "2030-01-01T00:00:00-05:00" 0 = true :=
  ⟨rfl, by decide, rfl, rfl, rfl⟩

/-- C1 (amended): an expiry text with an explicit positive-signed offset (it
contains `+` and does not end in `Z`) passes through the normalisation
unchanged, and when it parses with an explicit offset to an instant strictly
in the future, `is_expired` returns `false`; texts with a negative offset are
instead mangled by the normalisation and rejected (see the counterexample). -/
theorem C1_amended_positive_offset_alive (s : String) (nowUs : Int) (dt : PyDateTime)
    (hz : pyEndsWith s "Z" = false) (hp : pyContains s '+' = true)
    (hparse : parse_py_isoformat s = some dt) (_hoff : dt.offsetUs.isSome = true)
    (hfut : nowUs < pyDatetimeInstant dt) :
    is_expired s nowUs = false := by
  have hne : s ≠ "" := by
    intro h
    rw [h] at hp
    exact absurd hp (by decide)
  have hnorm : normalizeExpiry s = s := by
    unfold normalizeExpiry
    rw [if_neg (by simp [hz]), if_neg (by simp [hp])]
  unfold is_expired
  rw [if_neg hne, hnorm, hparse]
  simp only [decide_eq_false_iff_not, gt_iff_lt, not_lt]
  omega

/-- C1 witness: a future instant with explicit `+00:00` offset is alive. -/
theorem C1_witness : is_expired "2030-01-01T00:00:00+00:00" 0 = false :=
  C1_amended_positive_offset_alive "2030-01-01T00:00:00+00:00" 0
    ⟨2030, 1, 1, 0, 0, 0, 0, some 0⟩ rfl rfl rfl rfl (by decide)

/-- C4 counterexample: a mapping whose `ttlTimestamp` is the truncated epoch
second of its `expiryDate` (exactly what creation writes), at an instant
inside the fractional last second: `expiryDate` is 100.5s, now is 100.2s, so
the resolve path says alive, but the deduplication query's
`ttlTimestamp > int(now)` filter (100 > 100) drops it — the two paths
disagree. -/
theorem C4_counterexample :
    find_existing_url
      [⟨"abc123", "https://a.com", "now", "1970-01-01T00:01:40.500000+00:00", 100, 0⟩]
      100200000 = none ∧
    resolveAlive ⟨"abc123", "https://a.com", "now", "1970-01-01T00:01:40.500000+00:00", 100, 0⟩
      100200000 = true :=
  ⟨rfl, rfl⟩

/-- C4 (amended): both paths evaluate aliveness with the same `is_expired`
evaluator, but the deduplication path additionally requires
`ttlTimestamp > int(now)`; the two decisions coincide exactly on mappings
passing that store-side filter, and the dedup path reports dead (never the
converse) when the filter fails. -/
theorem C4_amended_agreement_given_ttl_filter (it : UrlMapping) (nowUs : Int) :
    (find_existing_url [it] nowUs).isSome =
      (resolveAlive it nowUs && decide (Int.tdiv nowUs 1000000 < it.ttlTimestamp)) := by
  unfold find_existing_url resolveAlive
  by_cases h : Int.tdiv nowUs 1000000 < it.ttlTimestamp
  · rw [List.filter_cons, if_pos (by simpa using h)]
    by_cases h2 : is_expired it.expiryDate nowUs
    · simp [List.find?_cons, h2, h]
    · simp [List.find?_cons, h2, h]
  · rw [List.filter_cons, if_neg (by simpa using h)]
    simp [h]

/-- C9: resolving a present but expired mapping yields the Gone response
carrying the expiry date — a different constructor from NotFound — and the
best-effort counter increment is never attempted, leaving `clickCount` and
`lastAccessedAt` untouched. -/
theorem C9_expired_resolve_gone (sid : String) (item : UrlMapping) (nowUs : Int)
    (hsid : sid ≠ "") (hexp : is_expired item.expiryDate nowUs = true) :
    redirectURL_lambda_handler (some sid) (.ok (some item)) nowUs =
      ⟨.gone sid item.expiryDate, false⟩ ∧
    RedirectResp.gone sid item.expiryDate ≠ RedirectResp.notFound sid := by
  refine ⟨?_, fun h => RedirectResp.noConfusion h⟩
  unfold redirectURL_lambda_handler
  rw [if_neg (by simp [optTruthy, hsid])]
  simp [hexp]

/-- C9 witness: a concrete expired mapping resolves to Gone with no counter
attempt. -/
theorem C9_witness :
    redirectURL_lambda_handler (some "abc123")
      (.ok (some ⟨"abc123", "https://a.com", "now", "1970-01-01T00:00:01+00:00", 1, 0⟩))
      200000000000 =
      ⟨.gone "abc123" "1970-01-01T00:00:01+00:00", false⟩ ∧
    RedirectResp.gone "abc123" "1970-01-01T00:00:01+00:00" ≠ RedirectResp.notFound "abc123" :=
  C9_expired_resolve_gone "abc123"
    ⟨"abc123", "https://a.com", "now", "1970-01-01T00:00:01+00:00", 1, 0⟩
    200000000000 (by decide) rfl

/-- C5: a request with a truthy valid custom suffix whose conditional insert
reports "already exists" makes exactly one store write (the suffix itself),
surfaces `ConflictError`, and never retries with another code. -/
theorem C5_custom_suffix_conflict_one_write (url cs ca : String)
    (hashTs entropyTs : Nat → String) (store : Nat → StoreResp)
    (hvalid : _is_valid_custom_suffix cs = true) (hstore : store 0 = .conflict) :
    create_short_url_with_retry url (some cs) 0 ca hashTs entropyTs store =
      ⟨.error (.conflictError "Resource already exists or condition not met"), [cs]⟩ := by
  have hne : cs ≠ "" := by
    intro h
    rw [h] at hvalid
    exact absurd hvalid (by decide)
  rw [create_retry_unfold, show (3 : Nat) = 2 + 1 from rfl]
  exact retryLoop_custom_conflict url cs _ ca _ hashTs entropyTs _ 2 hne hvalid hstore

/-- C5 witness: the `"my-link"` scenario of the spec. -/
theorem C5_witness :
    create_short_url_with_retry "https://a.com" (some "my-link") 0 "c"
      (fun _ => "") (fun _ => "") (fun _ => .conflict) =
      ⟨.error (.conflictError "Resource already exists or condition not met"), ["my-link"]⟩ :=
  C5_custom_suffix_conflict_one_write "https://a.com" "my-link" "c"
    (fun _ => "") (fun _ => "") (fun _ => .conflict) (by decide) rfl

/-- C6: with no custom suffix, when the store rejects the first two inserts
with "already exists" and accepts the third, exactly three writes happen, no
error is surfaced, and the returned mapping's `shortId` is the code generated
on the third attempt (attempt index 2, with its entropy suffix); and on any
immediately successful insert the orchestrator returns after a single write. -/
theorem C6_third_attempt_success (url ca : String) (hashTs entropyTs : Nat → String)
    (store storeOk : Nat → StoreResp) :
    (store 0 = .conflict → store 1 = .conflict → store 2 = .ok →
      create_short_url_with_retry url none 0 ca hashTs entropyTs store =
        ⟨.ok (genCode (url ++ ("_2_" ++ entropyTs 2)) (hashTs 2),
          ⟨genCode (url ++ ("_2_" ++ entropyTs 2)) (hashTs 2), url, ca,
           "1970-03-02T00:00:00+00:00", 5184000, 0⟩),
         [genCode url (hashTs 0), genCode (url ++ ("_1_" ++ entropyTs 1)) (hashTs 1),
          genCode (url ++ ("_2_" ++ entropyTs 2)) (hashTs 2)]⟩) ∧
    (storeOk 0 = .ok →
      create_short_url_with_retry url none 0 ca hashTs entropyTs storeOk =
        ⟨.ok (genCode url (hashTs 0),
          ⟨genCode url (hashTs 0), url, ca, "1970-03-02T00:00:00+00:00", 5184000, 0⟩),
         [genCode url (hashTs 0)]⟩) := by
  constructor
  · intro h0 h1 h2
    rw [create_retry_unfold,
      retryLoop_step0_conflict _ _ _ _ _ _ store h0,
      retryLoop_step1_conflict _ _ _ _ _ _ store _ h1,
      retryLoop_step2_ok _ _ _ _ _ _ store _ _ h2]
  · intro h0
    rw [create_retry_unfold,
      retryLoop_step0_ok _ _ _ _ _ _ storeOk h0]

/-- C6 witness: a concrete store oracle that conflicts twice then accepts,
and one that accepts immediately. -/
theorem C6_witness :
    create_short_url_with_retry "https://a.com" none 0 "c" (fun _ => "t") (fun _ => "t")
        (fun n => if n < 2 then .conflict else .ok) =
      ⟨.ok (genCode ("https://a.com" ++ ("_2_" ++ "t")) "t",
        ⟨genCode ("https://a.com" ++ ("_2_" ++ "t")) "t", "https://a.com", "c",
         "1970-03-02T00:00:00+00:00", 5184000, 0⟩),
       [genCode "https://a.com" "t", genCode ("https://a.com" ++ ("_1_" ++ "t")) "t",
        genCode ("https://a.com" ++ ("_2_" ++ "t")) "t"]⟩ ∧
    create_short_url_with_retry "https://a.com" none 0 "c" (fun _ => "t") (fun _ => "t")
        (fun _ => .ok) =
      ⟨.ok (genCode "https://a.com" "t",
        ⟨genCode "https://a.com" "t", "https://a.com", "c",
         "1970-03-02T00:00:00+00:00", 5184000, 0⟩),
       [genCode "https://a.com" "t"]⟩ :=
  ⟨(C6_third_attempt_success "https://a.com" "c" (fun _ => "t") (fun _ => "t")
      (fun n => if n < 2 then .conflict else .ok) (fun _ => .ok)).1 rfl rfl rfl,
   (C6_third_attempt_success "https://a.com" "c" (fun _ => "t") (fun _ => "t")
      (fun n => if n < 2 then .conflict else .ok) (fun _ => .ok)).2 rfl⟩

/-- C3 counterexample: exhausting the three attempts raises
`DatabaseError("Unable to generate unique short URL after multiple attempts")`
— the same exception class `DatabaseError` that a generic storage failure
raises — so the two runs below produce errors of the identical kind and a
caller cannot tell exhaustion from a store failure by the error kind. -/
theorem C3_counterexample :
    errIsDatabase (create_short_url_with_retry "https://a.com" none 0 "c"
      (fun _ => "t") (fun _ => "t") (fun _ => .conflict)).result = true ∧
    errIsDatabase (create_short_url_with_retry "https://a.com" none 0 "c"
      (fun _ => "t") (fun _ => "t") (fun _ => .dbError "x")).result = true := by
  constructor
  · rw [create_retry_unfold,
      retryLoop_step0_conflict _ _ _ _ _ _ (fun _ => .conflict) rfl,
      retryLoop_step1_conflict _ _ _ _ _ _ (fun _ => .conflict) _ rfl,
      retryLoop_step2_exhaust _ _ _ _ _ _ (fun _ => .conflict) _ _ rfl]
    rfl
  · rfl

/-- C3 (amended): exhaustion of all three attempts on generated codes is
surfaced as a `DatabaseError` — the same error kind as a generic storage
failure, not a distinct one — distinguishable only by its message text; the
loop does make exactly three writes before giving up. -/
theorem C3_amended_exhaustion_is_database_error (url ca : String)
    (hashTs entropyTs : Nat → String) (store : Nat → StoreResp)
    (h0 : store 0 = .conflict) (h1 : store 1 = .conflict) (h2 : store 2 = .conflict) :
    create_short_url_with_retry url none 0 ca hashTs entropyTs store =
      ⟨.error (.databaseError
        "Database error: Unable to generate unique short URL after multiple attempts"),
       [genCode url (hashTs 0), genCode (url ++ ("_1_" ++ entropyTs 1)) (hashTs 1),
        genCode (url ++ ("_2_" ++ entropyTs 2)) (hashTs 2)]⟩ := by
  rw [create_retry_unfold,
    retryLoop_step0_conflict _ _ _ _ _ _ store h0,
    retryLoop_step1_conflict _ _ _ _ _ _ store _ h1,
    retryLoop_step2_exhaust _ _ _ _ _ _ store _ _ h2]

/-- C3 witness: the all-conflict store exhausts the three attempts into a
`DatabaseError`. -/
theorem C3_witness :
    create_short_url_with_retry "https://a.com" none 0 "c" (fun _ => "t") (fun _ => "t")
        (fun _ => .conflict) =
      ⟨.error (.databaseError
        "Database error: Unable to generate unique short URL after multiple attempts"),
       [genCode "https://a.com" "t", genCode ("https://a.com" ++ ("_1_" ++ "t")) "t",
        genCode ("https://a.com" ++ ("_2_" ++ "t")) "t"]⟩ :=
  C3_amended_exhaustion_is_database_error "https://a.com" "c" (fun _ => "t") (fun _ => "t")
    (fun _ => .conflict) rfl rfl rfl

/-- C2: a create-or-get request with a well-formed long URL and the malformed
custom suffix `"ab"` (length 2) is answered by the generic internal-error arm
(HTTP 500), not by a `ValidationError` response: `generate_short_url` raises
`ValueError`, which no specific `except` clause catches.  No store write and
no retry happens (the write trace is empty). -/
theorem C2_bug_malformed_suffix_internal_error :
    getOrCreate_lambda_handler (some "https://example.com") (some "ab") [] 0 "c"
      (fun _ => "t") (fun _ => "t") (fun _ => .ok) =
      ⟨.internalErr, []⟩ := by
  rfl

end UrlShortner
